import Mathlib

/-!
A Lean model of the Chirpy web service (`main.go`) together with proofs about
its moderation filter, resource handlers, response envelope and hit counter.

Go strings are modelled as lists of Unicode code points (`List Char`); where
Go's `len` counts UTF-8 bytes, the model computes the UTF-8 byte length
explicitly.  HTTP handlers become pure functions from the decoded request and
the outcome of each storage-collaborator call to the written response; the
storage calls a handler performs are returned explicitly so that frame
properties ("no storage call is made") are visible in the model.
-/

namespace Chirpy

/-- Go strings, as their sequence of Unicode code points (runes). -/
abbrev GoString := List Char

/-- Embeds `unicode.IsSpace` (the white-space class used by `strings.Fields`):
Latin-1 white space and the Unicode space category. -/
def goIsSpace (c : Char) : Bool :=
  c.toNat == 0x20 || c.toNat == 0x9 || c.toNat == 0xA || c.toNat == 0xB ||
  c.toNat == 0xC || c.toNat == 0xD || c.toNat == 0x85 || c.toNat == 0xA0 ||
  c.toNat == 0x1680 || (0x2000 ≤ c.toNat && c.toNat ≤ 0x200A) ||
  c.toNat == 0x2028 || c.toNat == 0x2029 || c.toNat == 0x202F ||
  c.toNat == 0x205F || c.toNat == 0x3000

/-- Accumulator worker for `goFields`: `acc` holds the current word reversed. -/
def goFieldsAux : List Char → List Char → List (List Char)
  | acc, [] => if acc = [] then [] else [acc.reverse]
  | acc, c :: cs =>
    if goIsSpace c then
      if acc = [] then goFieldsAux [] cs
      else acc.reverse :: goFieldsAux [] cs
    else goFieldsAux (c :: acc) cs

/-- Embeds `strings.Fields`: splits around each run of one or more white-space
characters, returning the (possibly empty) list of maximal non-space words. -/
def goFields (s : GoString) : List GoString := goFieldsAux [] s

/-- Embeds `strings.Join(elems, sep)`. -/
def goJoin (sep : GoString) : List GoString → GoString
  | [] => []
  | [w] => w
  | w :: ws => w ++ sep ++ goJoin sep ws

/-- Embeds `unicode.ToLower` restricted to the simple lowercase mappings whose
result is an ASCII character (the ASCII uppercase range, U+0130 and U+212A).
`cleanProfanity` only compares the lowered word against the all-ASCII banned
words, so every other rune's mapping can never influence that comparison and
is modelled as the identity. -/
def goToLowerChar (c : Char) : Char :=
  if 'A' ≤ c ∧ c ≤ 'Z' then Char.ofNat (c.toNat + 32)
  else if c.toNat = 0x130 then 'i'
  else if c.toNat = 0x212A then 'k'
  else c

/-- Embeds `strings.ToLower` (rune-wise lowering, see `goToLowerChar`). -/
def goToLower (s : GoString) : GoString := s.map goToLowerChar

/-- The UTF-8 encoding length of one rune, as Go stores it in a string. -/
def utf8CharLen (c : Char) : Nat :=
  if c.toNat < 0x80 then 1
  else if c.toNat < 0x800 then 2
  else if c.toNat < 0x10000 then 3
  else 4

/-- Embeds Go's `len` on a string: the number of UTF-8 bytes, not runes. -/
def goLen (s : GoString) : Nat := (s.map utf8CharLen).sum

/-- Worker for `goContains`: does `sub` occur starting at any position? -/
def goContainsAux (sub : GoString) : GoString → Bool
  | [] => sub.isEmpty
  | c :: t => if sub.isPrefixOf (c :: t) then true else goContainsAux sub t

/-- Embeds `strings.Contains(s, sub)`. -/
def goContains (s sub : GoString) : Bool := goContainsAux sub s

/-- The banned-word set of `cleanProfanity` (`profaneWords` in `main.go`);
the Go map with `true` values is modelled as the list of its keys. -/
def profaneWords : List GoString :=
  ["kerfuffle".toList, "sharbert".toList, "fornax".toList]

/-- The body of the word loop in `cleanProfanity`: a word whose lowercase
form is a banned word becomes `"****"`, every other word is kept. -/
def replaceWord (w : GoString) : GoString :=
  if profaneWords.contains (goToLower w) then "****".toList else w

/-- Embeds `cleanProfanity`: split the body into fields, replace every word
whose lowercase form is a banned word by `"****"`, and re-join the words with
single spaces. -/
def cleanProfanity (body : GoString) : GoString :=
  goJoin [' '] ((goFields body).map replaceWord)

/-- The `User` API entity: `ID`, `CreatedAt`, `UpdatedAt`, `Email`.  Opaque
UUIDs and timestamps are modelled as natural numbers. -/
structure User where
  id : Nat
  createdAt : Nat
  updatedAt : Nat
  email : GoString
deriving DecidableEq

/-- The `Chirp` API entity: `ID`, `CreatedAt`, `UpdatedAt`, `Body`, `UserID`. -/
structure Chirp where
  id : Nat
  createdAt : Nat
  updatedAt : Nat
  body : GoString
  userID : Nat
deriving DecidableEq

/-- A row returned by the generated `database.CreateUser` accessor. -/
structure DBUser where
  id : Nat
  createdAt : Nat
  updatedAt : Nat
  email : GoString
deriving DecidableEq

/-- A row returned by the generated `database.CreateChirp` accessor. -/
structure DBChirp where
  id : Nat
  createdAt : Nat
  updatedAt : Nat
  body : GoString
  userID : Nat
deriving DecidableEq

/-- `database.CreateChirpParams`: the argument record of the `CreateChirp`
storage call, i.e. exactly what the handler asks the collaborator to persist. -/
structure CreateChirpParams where
  id : Nat
  createdAt : Nat
  updatedAt : Nat
  body : GoString
  userID : Nat
deriving DecidableEq

/-- `createUserRequest`: the decoded JSON body of `POST /api/users`. -/
structure CreateUserRequest where
  email : GoString
deriving DecidableEq

/-- `createChirpRequest`: the decoded JSON body of `POST /api/chirps`. -/
structure CreateChirpRequest where
  body : GoString
  userID : Nat
deriving DecidableEq

/-- The JSON payload a handler hands to the response envelope: an entity
representation or an `{"error": msg}` object built by `respondWithError`. -/
inductive Payload where
  | chirp (c : Chirp)
  | user (u : User)
  | errMsg (msg : GoString)
deriving DecidableEq

/-- What `handlerCreateChirp` writes: the HTTP status, the payload handed to
the envelope, and the list of `CreateChirp` storage calls it performed. -/
structure ChirpResponse where
  status : Nat
  payload : Payload
  calls : List CreateChirpParams
deriving DecidableEq

/-- Embeds `handlerCreateChirp`.  Inputs that Go obtains from the outside are
parameters: the JSON-decode outcome (`none` = decode error), the generated
UUID, the two `time.Now().UTC()` readings, and the storage collaborator's
behaviour `db` on the params it is called with. -/
def handlerCreateChirp (decode : Option CreateChirpRequest)
    (newID now1 now2 : Nat)
    (db : CreateChirpParams → Except GoString DBChirp) : ChirpResponse :=
  match decode with
  | none =>
    { status := 400, payload := .errMsg "Invalid request payload".toList, calls := [] }
  | some params =>
    if goLen params.body > 140 then
      { status := 400, payload := .errMsg "Chirp is too long".toList, calls := [] }
    else
      let p : CreateChirpParams :=
        { id := newID, createdAt := now1, updatedAt := now2,
          body := params.body, userID := params.userID }
      match db p with
      | .error _ =>
        { status := 500, payload := .errMsg "Couldn\x27t create chirp".toList, calls := [p] }
      | .ok c =>
        { status := 201,
          payload := .chirp
            { id := c.id, createdAt := c.createdAt, updatedAt := c.updatedAt,
              body := c.body, userID := c.userID },
          calls := [p] }

/-- The `INSERT ... RETURNING` contract of the generated `CreateChirp`
accessor (spec §6): the collaborator persists the params and echoes them. -/
def echoChirpDB : CreateChirpParams → Except GoString DBChirp :=
  fun p => .ok { id := p.id, createdAt := p.createdAt, updatedAt := p.updatedAt,
                 body := p.body, userID := p.userID }

/-- What `handlerCreateUser` writes, plus the emails passed to the
`CreateUser` storage calls it performed. -/
structure UserResponse where
  status : Nat
  payload : Payload
  calls : List GoString
deriving DecidableEq

/-- The duplicate-key signature `handlerCreateUser` looks for in the error. -/
def dupKeySig : GoString := "duplicate key value".toList

/-- Embeds `handlerCreateUser`: decode failure gives 400; a collaborator
error whose text contains `"duplicate key value"` gives 400
`"Email already exists"`; any other collaborator error gives 500; success
gives 201 with the created user's public representation. -/
def handlerCreateUser (decode : Option CreateUserRequest)
    (db : GoString → Except GoString DBUser) : UserResponse :=
  match decode with
  | none =>
    { status := 400, payload := .errMsg "Invalid request body".toList, calls := [] }
  | some params =>
    match db params.email with
    | .error e =>
      if goContains e dupKeySig then
        { status := 400, payload := .errMsg "Email already exists".toList,
          calls := [params.email] }
      else
        { status := 500, payload := .errMsg "Couldn\x27t create user".toList,
          calls := [params.email] }
    | .ok u =>
      { status := 201,
        payload := .user
          { id := u.id, createdAt := u.createdAt, updatedAt := u.updatedAt,
            email := u.email },
        calls := [params.email] }

/-- A storage collaborator that reports a uniqueness violation on email with
the Postgres duplicate-key error text (spec §4.4). -/
def dupErrDB : GoString → Except GoString DBUser :=
  fun _ => .error "pq: duplicate key value violates unique constraint".toList

/-- The outcome of `json.Marshal(payload)`: on success the serialized bytes,
on failure an error (Go then leaves the byte slice nil). -/
inductive MarshalResult where
  | ok (bytes : GoString)
  | err (msg : GoString)
deriving DecidableEq

/-- The single response written by one invocation of `respondWithJSON`. -/
structure WrittenResponse where
  status : Nat
  contentType : GoString
  body : GoString
deriving DecidableEq

/-- Embeds `respondWithJSON`: `response, _ := json.Marshal(payload)` discards
the error (on failure `response` is nil), then the JSON content-type header,
the requested status code and `response` are written — exactly one response
per invocation, on the failure path too. -/
def respondWithJSON (code : Nat) (m : MarshalResult) : WrittenResponse :=
  { status := code,
    contentType := "application/json".toList,
    body := match m with | .ok b => b | .err _ => [] }

/-- The persisted state owned by the storage collaborator. -/
structure StoreState where
  users : List DBUser
  chirps : List DBChirp
deriving DecidableEq

/-- The deployment-mode value that permits `POST /admin/reset`. -/
def devPlatform : GoString := "dev".toList

/-- What `handlerReset` leaves behind: the HTTP status, the optional error
payload (the 200 path writes only the status), the hit counter afterwards,
the persisted state afterwards, and whether `DeleteAllUsers` was called. -/
structure ResetResponse where
  status : Nat
  body : Option Payload
  hits : Int
  store : StoreState
  deleteCalled : Bool
deriving DecidableEq

/-- Embeds `handlerReset`: outside `"dev"` it answers 403 `"Forbidden"`
without touching anything; otherwise it calls `DeleteAllUsers`, answering 500
on failure (counter untouched, post-failure store supplied by the
collaborator in the error) and 200 after success, storing 0 into the counter
only then. -/
def handlerReset (platform : GoString) (hits : Int) (store : StoreState)
    (deleteOutcome : Except (GoString × StoreState) StoreState) : ResetResponse :=
  if platform ≠ devPlatform then
    { status := 403, body := some (.errMsg "Forbidden".toList),
      hits := hits, store := store, deleteCalled := false }
  else
    match deleteOutcome with
    | .error e =>
      { status := 500, body := some (.errMsg "Couldn\x27t reset database".toList),
        hits := hits, store := e.2, deleteCalled := true }
    | .ok st =>
      { status := 200, body := none, hits := 0, store := st, deleteCalled := true }

/-- The operations performed on the shared `fileserverHits` counter:
`inc` is the `Add(1)` of `middlewareMetricsInc`, `reset` the `Store(0)` of
`handlerReset`. -/
inductive CounterOp where
  | inc
  | reset
deriving DecidableEq

/-- Wraps an integer to Go's two's-complement `int32`, the value type of
`atomic.Int32`. -/
def i32 (x : Int) : Int := (x + 2147483648) % 4294967296 - 2147483648

/-- One atomic step of the counter: `Add(1)` wraps as `int32`; `Store(0)`
overwrites with 0. -/
def counterStep (v : Int) : CounterOp → Int
  | .inc => i32 (v + 1)
  | .reset => 0

/-- A concurrent execution of counter operations: each operation is a single
atomic read-modify-write, so every interleaving of the concurrent callers is
some sequential order of the operations, folded over the shared cell. -/
def runCounter (v : Int) (ops : List CounterOp) : Int :=
  List.foldl counterStep v ops

/-! ### Helper lemmas about `goFields`, `goJoin` and `replaceWord` -/

/-- Scanning a space-free word extends the accumulator with its reverse. -/
theorem goFieldsAux_word (w : List Char) : ∀ (acc rest : List Char),
    (∀ c ∈ w, goIsSpace c = false) →
    goFieldsAux acc (w ++ rest) = goFieldsAux (w.reverse ++ acc) rest := by
  induction w with
  | nil => intro acc rest _; simp
  | cons c w ih =>
    intro acc rest h
    have hc : goIsSpace c = false := h c (by simp)
    have hw : ∀ x ∈ w, goIsSpace x = false := fun x hx => h x (by simp [hx])
    rw [List.cons_append]
    show (if goIsSpace c then _ else goFieldsAux (c :: acc) (w ++ rest)) = _
    rw [hc]
    simp only [Bool.false_eq_true, if_false]
    rw [ih (c :: acc) rest hw]
    simp [List.append_assoc]

/-- Every word produced by `goFieldsAux` is non-empty and space-free, given a
space-free accumulator. -/
theorem goFieldsAux_tokens (s : List Char) : ∀ (acc : List Char),
    (∀ c ∈ acc, goIsSpace c = false) →
    ∀ w ∈ goFieldsAux acc s, w ≠ [] ∧ ∀ c ∈ w, goIsSpace c = false := by
  induction s with
  | nil =>
    intro acc hacc w hw
    by_cases h : acc = []
    · simp [goFieldsAux, h] at hw
    · simp only [goFieldsAux, if_neg h, List.mem_singleton] at hw
      subst hw
      refine ⟨by simpa using h, ?_⟩
      intro c hc
      exact hacc c (by simpa using hc)
  | cons c cs ih =>
    intro acc hacc w hw
    cases hgo : goIsSpace c with
    | false =>
      simp only [goFieldsAux, hgo, Bool.false_eq_true, if_false] at hw
      refine ih (c :: acc) ?_ w hw
      intro x hx
      rcases List.mem_cons.mp hx with h1 | h2
      · subst h1; exact hgo
      · exact hacc x h2
    | true =>
      by_cases h : acc = []
      · simp only [goFieldsAux, hgo, if_true, if_pos h] at hw
        exact ih [] (by intro x hx; simp at hx) w hw
      · simp only [goFieldsAux, hgo, if_true, if_neg h, List.mem_cons] at hw
        rcases hw with hw1 | hw2

        · subst hw1
          refine ⟨by simpa using h, ?_⟩
          intro x hx
          exact hacc x (by simpa using hx)
        · exact ih [] (by intro x hx; simp at hx) w hw2

/-- Every word of `goFields s` is non-empty and contains no white space. -/
theorem goFields_tokens (s : GoString) :
    ∀ w ∈ goFields s, w ≠ [] ∧ ∀ c ∈ w, goIsSpace c = false :=
  goFieldsAux_tokens s [] (by intro c hc; simp at hc)

/-- Splitting a single-space join of non-empty space-free words recovers the
words: `goFields` is a left inverse of `goJoin [' ']` on such lists. -/
theorem goFields_goJoin : ∀ (ws : List GoString),
    (∀ w ∈ ws, w ≠ [] ∧ ∀ c ∈ w, goIsSpace c = false) →
    goFields (goJoin [' '] ws) = ws := by
  intro ws
  induction ws with
  | nil => intro _; simp [goFields, goFieldsAux, goJoin]
  | cons w ws ih =>
    intro h
    have hw : w ≠ [] ∧ ∀ c ∈ w, goIsSpace c = false := h w (by simp)
    cases ws with
    | nil =>
      show goFieldsAux [] (goJoin [' '] [w]) = [w]
      have hjoin : goJoin [' '] [w] = w ++ [] := by simp [goJoin]
      rw [hjoin, goFieldsAux_word w [] [] hw.2]
      simp [goFieldsAux, List.reverse_eq_nil_iff, hw.1]
    | cons w2 ws2 =>
      show goFieldsAux [] (goJoin [' '] (w :: w2 :: ws2)) = w :: w2 :: ws2
      have hjoin : goJoin [' '] (w :: w2 :: ws2)
          = w ++ (' ' :: goJoin [' '] (w2 :: ws2)) := by
        show w ++ [' '] ++ goJoin [' '] (w2 :: ws2) = _
        simp
      rw [hjoin, goFieldsAux_word w [] _ hw.2]
      have hstep : goFieldsAux (w.reverse ++ []) (' ' :: goJoin [' '] (w2 :: ws2))
          = w.reverse.reverse :: goFieldsAux [] (goJoin [' '] (w2 :: ws2)) := by
        simp only [List.append_nil]
        show (if goIsSpace ' ' then _ else _) = _
        rw [show goIsSpace ' ' = true from rfl]
        simp only [if_true]
        rw [if_neg (by simpa [List.reverse_eq_nil_iff] using hw.1)]
      rw [hstep, List.reverse_reverse]
      congr 1
      exact ih (fun x hx => h x (by simp [hx]))

/-- The words of a cleaned body are exactly the original words pushed through
`replaceWord`: re-splitting the single-space join recovers them one-to-one. -/
theorem goFields_cleanProfanity (s : GoString) :
    goFields (cleanProfanity s) = (goFields s).map replaceWord := by
  unfold cleanProfanity
  apply goFields_goJoin
  intro w hw
  rcases List.mem_map.mp hw with ⟨w0, hw0, hrepl⟩
  by_cases hp : profaneWords.contains (goToLower w0) = true
  · rw [replaceWord, if_pos hp] at hrepl
    subst hrepl
    exact ⟨by decide, by decide⟩
  · rw [replaceWord, if_neg hp] at hrepl
    subst hrepl
    exact goFields_tokens s w0 hw0

/-- `replaceWord` is idempotent: `"****"` is itself replaced by `"****"`. -/
theorem replaceWord_idem (w : GoString) :
    replaceWord (replaceWord w) = replaceWord w := by
  unfold replaceWord
  by_cases hp : profaneWords.contains (goToLower w) = true
  · rw [if_pos hp]
    decide
  · rw [if_neg hp]
    exact if_neg hp

/-! ### Helper lemmas about the hit counter -/

/-- One step of `runCounter` peels one operation off the trace. -/
theorem runCounter_cons (v : Int) (op : CounterOp) (ops : List CounterOp) :
    runCounter v (op :: ops) = runCounter (counterStep v op) ops := rfl

/-- Wrapping is idempotent across an increment. -/
theorem i32_wrap_add_one (x : Int) : i32 (i32 x + 1) = i32 (x + 1) := by
  unfold i32
  omega

/-- Zero is a fixed point of the `int32` wrap. -/
theorem i32_zero : i32 0 = 0 := by
  unfold i32
  decide

/-- Running `n` increments from a wrapped value wraps the sum. -/
theorem runCounter_replicate_inc : ∀ (n : Nat) (x : Int),
    runCounter (i32 x) (List.replicate n CounterOp.inc) = i32 (x + n) := by
  intro n
  induction n with
  | zero => intro x; simp [runCounter]
  | succ k ih =>
    intro x
    rw [List.replicate_succ, runCounter_cons]
    show runCounter (i32 (i32 x + 1)) _ = _
    rw [i32_wrap_add_one, ih (x + 1)]
    congr 1
    push_cast
    ring

/-- Running `n` increments from 0 yields `n` wrapped to `int32`. -/
theorem runCounter_inc_from_zero (n : Nat) :
    runCounter 0 (List.replicate n CounterOp.inc) = i32 n := by
  have h := runCounter_replicate_inc n 0
  rw [i32_zero] at h
  simpa using h

/-! ### The claims -/

/-- C3: for every input string, the words of the cleaned body are exactly the
whitespace-delimited words of the input pushed through `replaceWord`: a word
whose lowercase form equals one of `kerfuffle`, `sharbert`, `fornax` (in any
casing) becomes exactly `"****"`, and every other word — including words that
merely contain a banned word as a substring, whose lowercase form is then not
equal to the banned word — is kept unchanged, in place. -/
theorem cleanProfanity_token_replacement (s : GoString) :
    goFields (cleanProfanity s) = (goFields s).map replaceWord ∧
    (∀ w : GoString, replaceWord w =
      if profaneWords.contains (goToLower w) then "****".toList else w) ∧
    replaceWord "KerFuffle".toList = "****".toList ∧
    replaceWord "kerfuffles".toList = "kerfuffles".toList :=
  ⟨goFields_cleanProfanity s, fun _ => rfl, by decide, by decide⟩

/-- C4: a body of at most 140 characters none of whose words is banned is
returned unchanged up to whitespace normalization: the output is exactly the
single-space join of the input's words, and the word sequence itself is
preserved verbatim. -/
theorem cleanProfanity_no_profane_id (s : GoString)
    (_hlen : s.length ≤ 140)
    (htok : ∀ w ∈ goFields s, profaneWords.contains (goToLower w) = false) :
    cleanProfanity s = goJoin [' '] (goFields s) ∧
    goFields (cleanProfanity s) = goFields s := by
  have hid : (goFields s).map replaceWord = goFields s := by
    have hpt : ∀ w ∈ goFields s, replaceWord w = id w := by
      intro w hw
      show replaceWord w = w
      unfold replaceWord
      have hne := htok w hw
      rw [if_neg (by rw [hne]; simp)]
    rw [List.map_congr_left hpt, List.map_id]
  constructor
  · show goJoin [' '] ((goFields s).map replaceWord) = _
    rw [hid]
  · rw [goFields_cleanProfanity, hid]

/-- Witness for C4 at the concrete body `"hello   world"`. -/
theorem cleanProfanity_no_profane_id_witness :
    ("hello   world".toList.length ≤ 140) ∧
    cleanProfanity "hello   world".toList
      = goJoin [' '] (goFields "hello   world".toList) :=
  ⟨by decide,
   (cleanProfanity_no_profane_id "hello   world".toList (by decide) (by decide)).1⟩

/-- C9: the profanity filter is idempotent — cleaning a cleaned body changes
nothing, since the output is a single-space join of words none of which is
replaced again (`"****"` maps to itself). -/
theorem cleanProfanity_idempotent (s : GoString) :
    cleanProfanity (cleanProfanity s) = cleanProfanity s := by
  show goJoin [' '] ((goFields (cleanProfanity s)).map replaceWord) = cleanProfanity s
  rw [goFields_cleanProfanity, List.map_map]
  rw [show replaceWord ∘ replaceWord = replaceWord from funext replaceWord_idem]
  rfl

/-- C1: the code violates the moderation invariant.  On the spec's own
scenario — `POST /api/chirps` with body `"this is a kerfuffle"` and an
echoing storage collaborator — the handler answers 201 but both the persisted
body (the `CreateChirp` call's params) and the returned `Chirp` carry the raw
input, not the cleaned body `"this is a ****"` that `cleanProfanity` (which
`handlerCreateChirp` never invokes) would produce. -/
theorem createChirp_persists_raw_body :
    (handlerCreateChirp (some { body := "this is a kerfuffle".toList, userID := 7 })
        1 2 3 echoChirpDB).status = 201 ∧
    (handlerCreateChirp (some { body := "this is a kerfuffle".toList, userID := 7 })
        1 2 3 echoChirpDB).calls =
      [{ id := 1, createdAt := 2, updatedAt := 3,
         body := "this is a kerfuffle".toList, userID := 7 }] ∧
    (handlerCreateChirp (some { body := "this is a kerfuffle".toList, userID := 7 })
        1 2 3 echoChirpDB).payload =
      Payload.chirp { id := 1, createdAt := 2, updatedAt := 3,
                      body := "this is a kerfuffle".toList, userID := 7 } ∧
    cleanProfanity "this is a kerfuffle".toList = "this is a ****".toList ∧
    ("this is a kerfuffle".toList : GoString) ≠ "this is a ****".toList := by
  decide

/-- C2 counterexample: the length check counts UTF-8 bytes, not characters.
A body of 71 characters `é` (142 bytes) is at most 140 characters long, yet
the handler rejects it with 400 `"Chirp is too long"` and no storage call —
so it is false that every body of at most 140 characters passes the check. -/
theorem chirp_length_check_counts_bytes_cex :
    (List.replicate 71 'é').length = 71 ∧
    (handlerCreateChirp (some { body := List.replicate 71 'é', userID := 7 })
        1 2 3 echoChirpDB).status = 400 ∧
    (handlerCreateChirp (some { body := List.replicate 71 'é', userID := 7 })
        1 2 3 echoChirpDB).payload = Payload.errMsg "Chirp is too long".toList ∧
    (handlerCreateChirp (some { body := List.replicate 71 'é', userID := 7 })
        1 2 3 echoChirpDB).calls = [] := by
  decide

/-- C2 (amended): the length check measures the body in UTF-8 bytes (Go's
`len`).  A body of more than 140 bytes is answered 400 `"Chirp is too long"`
with no storage call; a body of at most 140 bytes passes the check regardless
of content, and the storage collaborator is called exactly once with it. -/
theorem chirp_length_check_spec (params : CreateChirpRequest) (newID now1 now2 : Nat)
    (db : CreateChirpParams → Except GoString DBChirp) :
    (goLen params.body > 140 →
      (handlerCreateChirp (some params) newID now1 now2 db).status = 400 ∧
      (handlerCreateChirp (some params) newID now1 now2 db).payload =
        Payload.errMsg "Chirp is too long".toList ∧
      (handlerCreateChirp (some params) newID now1 now2 db).calls = []) ∧
    (goLen params.body ≤ 140 →
      (handlerCreateChirp (some params) newID now1 now2 db).calls =
        [{ id := newID, createdAt := now1, updatedAt := now2,
           body := params.body, userID := params.userID }]) := by
  constructor
  · intro h
    simp [handlerCreateChirp, h]
  · intro h
    have hne : ¬ goLen params.body > 140 := by omega
    cases hdb : db { id := newID, createdAt := now1, updatedAt := now2,
                     body := params.body, userID := params.userID } with
    | error e => simp [handlerCreateChirp, hne, hdb]
    | ok c => simp [handlerCreateChirp, hne, hdb]

/-- Witness for C2's amended theorem at the concrete body `"hi there"`. -/
theorem chirp_length_check_spec_witness :
    goLen "hi there".toList ≤ 140 ∧
    (handlerCreateChirp (some { body := "hi there".toList, userID := 5 })
        1 2 3 echoChirpDB).calls =
      [{ id := 1, createdAt := 2, updatedAt := 3,
         body := "hi there".toList, userID := 5 }] :=
  ⟨by decide,
   (chirp_length_check_spec { body := "hi there".toList, userID := 5 }
      1 2 3 echoChirpDB).2 (by decide)⟩

/-- C5: reset outside `"dev"` answers 403 with the counter untouched; in
`"dev"`, a failing bulk delete answers 500 with the counter untouched; the
counter is stored 0 only after the delete succeeds, with a 200 answer. -/
theorem handlerReset_spec (platform : GoString) (hits : Int) (store : StoreState)
    (outcome : Except (GoString × StoreState) StoreState) :
    (platform ≠ devPlatform →
      (handlerReset platform hits store outcome).status = 403 ∧
      (handlerReset platform hits store outcome).hits = hits) ∧
    (platform = devPlatform →
      ∀ e, outcome = Except.error e →
        (handlerReset platform hits store outcome).status = 500 ∧
        (handlerReset platform hits store outcome).hits = hits) ∧
    (platform = devPlatform →
      ∀ st, outcome = Except.ok st →
        (handlerReset platform hits store outcome).status = 200 ∧
        (handlerReset platform hits store outcome).hits = 0) := by
  refine ⟨?_, ?_, ?_⟩
  · intro h
    simp [handlerReset, h]
  · intro h e he
    subst he
    simp [handlerReset, h]
  · intro h st hst
    subst hst
    simp [handlerReset, h]

/-- Witness for C5 on the forbidden path, at platform `"prod"`. -/
theorem handlerReset_spec_witness :
    ("prod".toList : GoString) ≠ devPlatform ∧
    (handlerReset "prod".toList 7 { users := [], chirps := [] }
        (Except.ok { users := [], chirps := [] })).status = 403 ∧
    (handlerReset "prod".toList 7 { users := [], chirps := [] }
        (Except.ok { users := [], chirps := [] })).hits = 7 :=
  ⟨by decide,
   ((handlerReset_spec "prod".toList 7 { users := [], chirps := [] }
       (Except.ok { users := [], chirps := [] })).1 (by decide)).1,
   ((handlerReset_spec "prod".toList 7 { users := [], chirps := [] }
       (Except.ok { users := [], chirps := [] })).1 (by decide)).2⟩

/-- C10: on the forbidden path the reset handler performs no storage call at
all — `DeleteAllUsers` is never invoked — so the persisted Users and Chirps,
and not only the hit counter, are exactly what they were before. -/
theorem handlerReset_forbidden_frame (platform : GoString) (hits : Int)
    (store : StoreState) (outcome : Except (GoString × StoreState) StoreState)
    (h : platform ≠ devPlatform) :
    (handlerReset platform hits store outcome).deleteCalled = false ∧
    (handlerReset platform hits store outcome).store = store ∧
    (handlerReset platform hits store outcome).hits = hits := by
  simp [handlerReset, h]

/-- Witness for C10 at platform `"prod"` with a non-empty store. -/
theorem handlerReset_forbidden_frame_witness :
    ("prod".toList : GoString) ≠ devPlatform ∧
    (handlerReset "prod".toList 3
        { users := [{ id := 1, createdAt := 0, updatedAt := 0,
                      email := "a@b.com".toList }], chirps := [] }
        (Except.ok { users := [], chirps := [] })).deleteCalled = false ∧
    (handlerReset "prod".toList 3
        { users := [{ id := 1, createdAt := 0, updatedAt := 0,
                      email := "a@b.com".toList }], chirps := [] }
        (Except.ok { users := [], chirps := [] })).store =
      { users := [{ id := 1, createdAt := 0, updatedAt := 0,
                    email := "a@b.com".toList }], chirps := [] } :=
  ⟨by decide,
   (handlerReset_forbidden_frame "prod".toList 3
      { users := [{ id := 1, createdAt := 0, updatedAt := 0,
                    email := "a@b.com".toList }], chirps := [] }
      (Except.ok { users := [], chirps := [] }) (by decide)).1,
   (handlerReset_forbidden_frame "prod".toList 3
      { users := [{ id := 1, createdAt := 0, updatedAt := 0,
                    email := "a@b.com".toList }], chirps := [] }
      (Except.ok { users := [], chirps := [] }) (by decide)).2.1⟩

/-- C6 counterexample: when serialization fails, the envelope does not fall
back to a bare 500 — the error is discarded and the originally requested
status (here 201) is written, with the JSON content-type header set and an
empty body. -/
theorem respondWithJSON_marshal_failure_cex :
    (respondWithJSON 201
        (MarshalResult.err "json: unsupported type: chan int".toList)).status = 201 ∧
    (respondWithJSON 201
        (MarshalResult.err "json: unsupported type: chan int".toList)).status ≠ 500 ∧
    (respondWithJSON 201
        (MarshalResult.err "json: unsupported type: chan int".toList)).contentType =
      "application/json".toList ∧
    (respondWithJSON 201
        (MarshalResult.err "json: unsupported type: chan int".toList)).body = [] := by
  decide

/-- C6 (amended): the envelope writes exactly one response per invocation,
always with the requested status code and a JSON content-type header; on
successful serialization the body is the serialized payload, and on
serialization failure the error is discarded and the body is empty (the
requested status code is still used — there is no bare-500 fallback). -/
theorem respondWithJSON_spec (code : Nat) (m : MarshalResult) :
    (respondWithJSON code m).status = code ∧
    (respondWithJSON code m).contentType = "application/json".toList ∧
    (∀ b, m = MarshalResult.ok b → (respondWithJSON code m).body = b) ∧
    (∀ e, m = MarshalResult.err e → (respondWithJSON code m).body = []) := by
  refine ⟨rfl, rfl, ?_, ?_⟩
  · intro b hb
    subst hb
    rfl
  · intro e he
    subst he
    rfl

/-- Witness for C6's amended theorem on a successful serialization. -/
theorem respondWithJSON_spec_witness :
    (respondWithJSON 200 (MarshalResult.ok "x".toList)).body = "x".toList :=
  (respondWithJSON_spec 200 (MarshalResult.ok "x".toList)).2.2.1 "x".toList rfl

/-- C7: a collaborator error carrying the duplicate-key signature makes the
handler answer 400 (a conflict status) with the `"Email already exists"`
error message and no user representation — the single attempted `CreateUser`
call failed, so no duplicate user was created; any other collaborator error
yields 500; on success the handler answers 201 with the created user's id,
timestamps and email. -/
theorem handlerCreateUser_spec (params : CreateUserRequest)
    (db : GoString → Except GoString DBUser) :
    (∀ e, db params.email = Except.error e → goContains e dupKeySig = true →
      (handlerCreateUser (some params) db).status = 400 ∧
      (handlerCreateUser (some params) db).payload =
        Payload.errMsg "Email already exists".toList ∧
      (handlerCreateUser (some params) db).calls = [params.email]) ∧
    (∀ e, db params.email = Except.error e → goContains e dupKeySig = false →
      (handlerCreateUser (some params) db).status = 500 ∧
      (handlerCreateUser (some params) db).calls = [params.email]) ∧
    (∀ u, db params.email = Except.ok u →
      (handlerCreateUser (some params) db).status = 201 ∧
      (handlerCreateUser (some params) db).payload =
        Payload.user { id := u.id, createdAt := u.createdAt,
                       updatedAt := u.updatedAt, email := u.email }) := by
  refine ⟨?_, ?_, ?_⟩
  · intro e he hc
    simp [handlerCreateUser, he, hc]
  · intro e he hc
    simp [handlerCreateUser, he, hc]
  · intro u hu
    simp [handlerCreateUser, hu]

/-- Witness for C7 on a duplicate-key collaborator error. -/
theorem handlerCreateUser_spec_witness :
    (handlerCreateUser (some { email := "a@b.com".toList }) dupErrDB).status = 400 ∧
    (handlerCreateUser (some { email := "a@b.com".toList }) dupErrDB).payload =
      Payload.errMsg "Email already exists".toList :=
  ⟨((handlerCreateUser_spec { email := "a@b.com".toList } dupErrDB).1
      "pq: duplicate key value violates unique constraint".toList rfl (by decide)).1,
   ((handlerCreateUser_spec { email := "a@b.com".toList } dupErrDB).1
      "pq: duplicate key value violates unique constraint".toList rfl (by decide)).2.1⟩

/-- C8 counterexample: the counter is an `atomic.Int32`, so "load returns
exactly N after N increments" fails at N = 2^31: the trace of 2^31 atomic
increments from 0 leaves the counter at -2^31, not 2^31. -/
theorem counter_overflow_cex :
    (List.replicate 2147483648 CounterOp.inc).length = 2147483648 ∧
    runCounter 0 (List.replicate 2147483648 CounterOp.inc) = -2147483648 ∧
    runCounter 0 (List.replicate 2147483648 CounterOp.inc) ≠ 2147483648 := by
  have h := runCounter_inc_from_zero 2147483648
  have h2 : i32 ((2147483648 : Nat) : Int) = -2147483648 := by
    unfold i32
    decide
  refine ⟨List.length_replicate .., ?_, ?_⟩
  · rw [h, h2]
  · rw [h, h2]
    decide

/-- C8 (amended): the counter loses no updates — every interleaving of
atomic increments is some sequential trace, and a trace of N increments from
0 leaves the counter at exactly N whenever N < 2^31 (beyond that the `int32`
cell wraps); after a `reset`, the loaded value is 0. -/
theorem counter_no_lost_updates (ops : List CounterOp)
    (hinc : ∀ op ∈ ops, op = CounterOp.inc) :
    (ops.length < 2147483648 → runCounter 0 ops = ops.length) ∧
    (∀ (v : Int) (pre : List CounterOp), runCounter v (pre ++ [CounterOp.reset]) = 0) := by
  constructor
  · intro hlen
    have heq := List.eq_replicate_of_mem hinc
    calc runCounter 0 ops
        = runCounter 0 (List.replicate ops.length CounterOp.inc) := by rw [← heq]
      _ = i32 ops.length := runCounter_inc_from_zero ops.length
      _ = ops.length := by unfold i32; omega
  · intro v pre
    show List.foldl counterStep v (pre ++ [CounterOp.reset]) = 0
    rw [List.foldl_append]
    rfl

/-- Witness for C8's amended theorem on a trace of three increments. -/
theorem counter_no_lost_updates_witness :
    runCounter 0 [CounterOp.inc, CounterOp.inc, CounterOp.inc] = 3 :=
  (counter_no_lost_updates [CounterOp.inc, CounterOp.inc, CounterOp.inc]
      (by decide)).1 (by decide)

end Chirpy
